import Mathlib

set_option autoImplicit false

namespace SmartType

/-! Shallow embedding of `src/SmartType/python-gui/main.py`: the configuration
persistence model (`SmartTypeConfig.load_config`, `SmartTypeConfig.save_config`,
`SmartTypeConfig.default_config`), the widget read/write logic of `MainWindow`
(`load_settings`, `load_applications_table`, `load_typos_table`,
`save_configuration`), and the service-manager wrappers (`start_service`,
`stop_service`, `restart_service`, `update_status`).

External libraries are modelled by their documented contracts: a YAML document
is a `YVal`; the on-disk file is a `FileState` (absent, zero-length, existing
but not decodable by `yaml.safe_load`, or decodable to a document); `yaml.dump`
of a document built from booleans, integers, strings, lists and string-keyed
maps produces text that `yaml.safe_load` decodes back to an equal document
(PyYAML round-trip on these types), which is why writing a document is modelled
as moving the file to `FileState.valid` of that document. Python `dict`s are
insertion-ordered association lists with in-place update (`dictInsert`).
-/

/-- A YAML document value as produced by `yaml.safe_load` / consumed by
`yaml.dump`, restricted to the constructors this configuration uses. -/
inductive YVal where
  | null
  | bool (b : Bool)
  | int (n : Int)
  | str (s : String)
  | list (xs : List YVal)
  | map (entries : List (String × YVal))
  deriving Repr

/-- Lookup in a Python `dict` modelled as an insertion-ordered association
list (`d[k]` / `d.get(k)`). -/
def lookupDict {α : Type} (m : List (String × α)) (k : String) : Option α :=
  match m with
  | [] => none
  | (k', v) :: rest => if k' = k then some v else lookupDict rest k

/-- Assignment `d[k] = v` on a Python `dict`: replaces the value in place if
the key is present, otherwise appends the new binding at the end. -/
def dictInsert {α : Type} (m : List (String × α)) (k : String) (v : α) :
    List (String × α) :=
  match m with
  | [] => [(k, v)]
  | (k', v') :: rest =>
      if k' = k then (k, v) :: rest else (k', v') :: dictInsert rest k v

/-- State of the configuration file at `~/.config/smarttype/config.yaml`:
missing, zero-length (as left by `open(path, 'w')` before any bytes are
written), existing with content `yaml.safe_load` rejects, or existing with
content `yaml.safe_load` decodes to `doc`. -/
inductive FileState where
  | absent
  | empty
  | invalid (raw : String)
  | valid (doc : YVal)
  deriving Repr

/-- Outcome of calling `SmartTypeConfig.load_config`: either it returns a
document, or the `yaml.safe_load` call raises and the exception propagates
out of `load_config` (there is no handler in the method). -/
inductive LoadOutcome where
  | ok (doc : YVal)
  | raised
  deriving Repr

/-- `SmartTypeConfig.default_config` (main.py lines 43-60), field for field. -/
def default_config : List (String × YVal) :=
  [("enabled", .bool true),
   ("smart_punctuation", .bool true),
   ("autocorrect", .bool true),
   ("min_word_length", .int 2),
   ("applications", .map
     [("firefox", .map [("enabled", .bool true), ("smart_quotes", .bool true),
                        ("autocorrect", .bool true)]),
      ("qterminal", .map [("enabled", .bool true), ("smart_quotes", .bool false),
                          ("autocorrect", .bool true)]),
      ("kitty", .map [("enabled", .bool true), ("smart_quotes", .bool false),
                      ("autocorrect", .bool true)])]),
   ("custom_typos", .map
     [("hte", .str "the"),
      ("becuase", .str "because")]),
   ("hotkey", .str "Super+Shift+A")]

/-- `SmartTypeConfig.load_config` (main.py lines 30-35): if the file exists,
return `yaml.safe_load(f)` — the parse error of an undecodable file
propagates, and a zero-length file decodes to Python `None`; if the file does
not exist, return `default_config()`. -/
def load_config (fs : FileState) : LoadOutcome :=
  match fs with
  | .absent => .ok (.map default_config)
  | .empty => .ok .null
  | .invalid _ => .raised
  | .valid doc => .ok doc

/-- Interruption points of `SmartTypeConfig.save_config` (main.py lines
37-41): `open(self.config_file, 'w')` truncates the file in place, then
`yaml.dump` writes the serialized document into it. -/
inductive SaveStep where
  | afterOpen
  | afterWrite
  deriving Repr, DecidableEq

/-- File state observable if `save_config` stops at `step`: right after the
truncating `open` the path holds a zero-length file; after the dump completes
it holds the serialized document. The prior file state is destroyed by the
`open` regardless of `step`. -/
def save_config_at (config : YVal) (step : SaveStep) : FileState :=
  match step with
  | .afterOpen => .empty
  | .afterWrite => .valid config

/-- `SmartTypeConfig.save_config` run to completion: the configuration path
ends up holding exactly the dumped document, whatever was there before. -/
def save_config (config : YVal) (_fs : FileState) : FileState :=
  save_config_at config .afterWrite

/-- Per-application rule as rendered by one row of the applications table
(columns Enabled, Smart Quotes, Autocorrect). -/
structure AppRule where
  enabled : Bool
  smart_quotes : Bool
  autocorrect : Bool
  deriving Repr, DecidableEq

/-- The settings value held by the widgets of `MainWindow` after
`load_settings`: the five scalar widgets plus the two tables (rows in display
order). -/
structure Settings where
  enabled : Bool
  smart_punctuation : Bool
  autocorrect : Bool
  min_word_length : Int
  hotkey : String
  applications : List (String × AppRule)
  custom_typos : List (String × String)
  deriving Repr, DecidableEq

/-- The YAML document `yaml.dump` serializes for a configuration dict whose
`applications` values have the three boolean fields in source order
(cf. `save_configuration` lines 417-421). -/
def AppRule.toYaml (r : AppRule) : YVal :=
  .map [("enabled", .bool r.enabled),
        ("smart_quotes", .bool r.smart_quotes),
        ("autocorrect", .bool r.autocorrect)]

/-- The configuration dict corresponding to a `Settings` value, with the keys
of `default_config` (Python dict equality is order-insensitive; this fixes
the insertion order of `default_config`). -/
def Settings.toYaml (s : Settings) : YVal :=
  .map [("enabled", .bool s.enabled),
        ("smart_punctuation", .bool s.smart_punctuation),
        ("autocorrect", .bool s.autocorrect),
        ("min_word_length", .int s.min_word_length),
        ("applications", .map (s.applications.map (fun p => (p.1, AppRule.toYaml p.2)))),
        ("custom_typos", .map (s.custom_typos.map (fun p => (p.1, YVal.str p.2)))),
        ("hotkey", .str s.hotkey)]

/-- A valid `Settings` value per the data model: `min_word_length` in
range 1..10, non-empty unique keys in both mappings. -/
def validSettings (s : Settings) : Prop :=
  1 ≤ s.min_word_length ∧ s.min_word_length ≤ 10 ∧
  (∀ p ∈ s.applications, p.1 ≠ "") ∧
  (∀ p ∈ s.custom_typos, p.1 ≠ "") ∧
  (s.applications.map Prod.fst).Nodup ∧
  (s.custom_typos.map Prod.fst).Nodup

instance (s : Settings) : Decidable (validSettings s) := by
  unfold validSettings
  infer_instance

/-- A `config.get(k, d)` whose result feeds `setChecked`: a missing key gives
the call-site default, a stored boolean is used as is, and any other stored
value is outside the modelled domain (`none`). -/
def getBool (m : List (String × YVal)) (k : String) (d : Bool) : Option Bool :=
  match lookupDict m k with
  | none => some d
  | some (.bool b) => some b
  | some _ => none

/-- A `config.get(k, d)` whose result feeds `QSpinBox.setValue`. -/
def getInt (m : List (String × YVal)) (k : String) (d : Int) : Option Int :=
  match lookupDict m k with
  | none => some d
  | some (.int n) => some n
  | some _ => none

/-- A `config.get(k, d)` whose result feeds `setText`. -/
def getStr (m : List (String × YVal)) (k : String) (d : String) : Option String :=
  match lookupDict m k with
  | none => some d
  | some (.str s) => some s
  | some _ => none

/-- A `config.get(k, {})` followed by `.items()`: a missing key gives the
empty dict, a stored mapping is iterated, and `.items()` on any other stored
value raises (`none`). -/
def getItems (m : List (String × YVal)) (k : String) :
    Option (List (String × YVal)) :=
  match lookupDict m k with
  | none => some []
  | some (.map es) => some es
  | some _ => none

/-- `QSpinBox.setValue` on the spinbox built in `create_general_tab` with
`setMinimum(1)` and `setMaximum(10)`: Qt clamps the value into the range. -/
def spinboxClamp (v : Int) : Int := max 1 (min 10 v)

/-- One iteration of `load_applications_table`: the three checkboxes of a row
are set from `app_config.get(...)` with call-site default `True`. -/
def readAppRule (v : YVal) : Option AppRule :=
  match v with
  | .map es => do
      let e ← getBool es "enabled" true
      let sq ← getBool es "smart_quotes" true
      let ac ← getBool es "autocorrect" true
      pure ⟨e, sq, ac⟩
  | _ => none

/-- `load_applications_table` over all rows. -/
def readApps (entries : List (String × YVal)) :
    Option (List (String × AppRule)) :=
  entries.mapM (fun p => (readAppRule p.2).map (fun r => (p.1, r)))

/-- `load_typos_table` over all rows: each correction is placed in a table
item, so a non-string correction is outside the modelled domain. -/
def readTypos (entries : List (String × YVal)) :
    Option (List (String × String)) :=
  entries.mapM (fun p =>
    match p.2 with
    | .str s => some (p.1, s)
    | _ => none)

/-- `MainWindow.load_settings` (plus `load_applications_table` and
`load_typos_table`): the settings value the widgets hold after loading
`config`, with each missing key replaced by that call site's default and the
spinbox clamping `min_word_length` into 1..10. -/
def load_settings_effective (config : List (String × YVal)) : Option Settings := do
  let e ← getBool config "enabled" true
  let ac ← getBool config "autocorrect" true
  let sp ← getBool config "smart_punctuation" true
  let mw ← getInt config "min_word_length" 2
  let hk ← getStr config "hotkey" "Super+Shift+A"
  let apps ← getItems config "applications"
  let appRules ← readApps apps
  let typoItems ← getItems config "custom_typos"
  let typos ← readTypos typoItems
  pure ⟨e, sp, ac, spinboxClamp mw, hk, appRules, typos⟩

/-- The widget state read back by `save_configuration`: checkbox states, the
spinbox value, the hotkey text, and the two tables row by row. -/
structure UIState where
  enabled_checkbox : Bool
  autocorrect_checkbox : Bool
  smart_punctuation_checkbox : Bool
  min_word_spinbox : Int
  hotkey_input : String
  app_table : List (String × Bool × Bool × Bool)
  typo_table : List (String × String)
  deriving Repr, DecidableEq

/-- The loop pattern of `save_configuration`: start from an empty dict and
assign one entry per table row (later rows overwrite earlier ones with the
same key). -/
def tableToDict {α : Type} (rows : List (String × α)) : List (String × α) :=
  rows.foldl (fun m r => dictInsert m r.1 r.2) []

/-- The per-row applications dict value built at lines 417-421. -/
def appRowVal (r : Bool × Bool × Bool) : YVal :=
  .map [("enabled", .bool r.1),
        ("smart_quotes", .bool r.2.1),
        ("autocorrect", .bool r.2.2)]

/-- `MainWindow.save_configuration` (lines 398-433) up to the `save_config`
call: the loaded configuration dict is mutated in place, reassigning exactly
the keys enabled, autocorrect, smart_punctuation, min_word_length, hotkey,
applications and custom_typos from the widgets. -/
def save_configuration (config : List (String × YVal)) (ui : UIState) :
    List (String × YVal) :=
  let c1 := dictInsert config "enabled" (.bool ui.enabled_checkbox)
  let c2 := dictInsert c1 "autocorrect" (.bool ui.autocorrect_checkbox)
  let c3 := dictInsert c2 "smart_punctuation" (.bool ui.smart_punctuation_checkbox)
  let c4 := dictInsert c3 "min_word_length" (.int ui.min_word_spinbox)
  let c5 := dictInsert c4 "hotkey" (.str ui.hotkey_input)
  let c6 := dictInsert c5 "applications"
      (.map (tableToDict (ui.app_table.map (fun p => (p.1, appRowVal p.2)))))
  dictInsert c6 "custom_typos"
      (.map ((tableToDict ui.typo_table).map (fun p => (p.1, YVal.str p.2))))

/-- Outcome of one `subprocess.run` invocation as observed by the caller: the
child completed with an exit code, or the invocation itself raised an OS
error (binary absent, permission denied). -/
inductive InvokeOutcome where
  | completed (returncode : Int)
  | osError
  deriving Repr, DecidableEq

/-- Result of `subprocess.run(..., check=True)`: a zero exit returns
normally, a non-zero exit raises `CalledProcessError` carrying the exit
status, and an invocation failure raises its OS error. -/
inductive RunResult where
  | ok
  | calledProcessError (returncode : Int)
  | osError
  deriving Repr, DecidableEq

def runChecked (o : InvokeOutcome) : RunResult :=
  match o with
  | .completed rc => if rc = 0 then .ok else .calledProcessError rc
  | .osError => .osError

/-- What the user sees from `start_service` / `stop_service` /
`restart_service`: an information dialog on success, a warning dialog whose
text interpolates the caught `CalledProcessError` (command and exit status)
on a non-zero exit, or an uncaught exception for anything else. -/
inductive ServiceUIOutcome where
  | success
  | reportedError (returncode : Int)
  | raised
  deriving Repr, DecidableEq

def serviceActionBody (res : RunResult) : ServiceUIOutcome :=
  match res with
  | .ok => .success
  | .calledProcessError rc => .reportedError rc
  | .osError => .raised

/-- The arguments of one `subprocess.run` call site. `timeout = none` means
no `timeout=` keyword was passed (the call may block indefinitely). -/
structure RunCall where
  argv : List String
  check : Bool
  capture_output : Bool
  timeout : Option Nat
  deriving Repr, DecidableEq

def start_service_call : RunCall :=
  ⟨["systemctl", "--user", "start", "smarttype"], true, false, none⟩

def stop_service_call : RunCall :=
  ⟨["systemctl", "--user", "stop", "smarttype"], true, false, none⟩

def restart_service_call : RunCall :=
  ⟨["systemctl", "--user", "restart", "smarttype"], true, false, none⟩

def update_status_call : RunCall :=
  ⟨["systemctl", "--user", "is-active", "smarttype"], false, true, none⟩

/-- `MainWindow.start_service` (lines 440-447): `try: run(..., check=True)`
with `except subprocess.CalledProcessError` showing a warning. -/
def start_service (o : InvokeOutcome) : ServiceUIOutcome :=
  serviceActionBody (runChecked o)

/-- `MainWindow.stop_service` (lines 449-456), same shape as
`start_service`. -/
def stop_service (o : InvokeOutcome) : ServiceUIOutcome :=
  serviceActionBody (runChecked o)

/-- `MainWindow.restart_service` (lines 458-465), same shape as
`start_service`. -/
def restart_service (o : InvokeOutcome) : ServiceUIOutcome :=
  serviceActionBody (runChecked o)

/-- Status displayed in the header after `update_status`. -/
inductive ServiceStatus where
  | Active
  | Inactive
  | Unknown
  deriving Repr, DecidableEq

/-- `MainWindow.update_status` (lines 517-535): `is-active` without
`check=True`; exit code 0 shows Active, any other exit code shows Inactive,
and the bare `except:` turns every raised exception into Unknown. -/
def update_status (o : InvokeOutcome) : ServiceStatus :=
  match o with
  | .completed rc => if rc = 0 then .Active else .Inactive
  | .osError => .Unknown

/-- The correction most recently entered for key `k` among the rows, in row
order (the last row with that key wins). -/
def lastEntered {α : Type} (rows : List (String × α)) (k : String) : Option α :=
  match rows with
  | [] => none
  | (k', v) :: rest =>
      match lastEntered rest k with
      | some v' => some v'
      | none => if k' = k then some v else none

/-- First-some choice on options. -/
def orElseOpt {α : Type} (o fallback : Option α) : Option α :=
  match o with
  | some v => some v
  | none => fallback

/-- The seven top-level keys `save_configuration` reassigns. -/
def knownConfigKeys : List String :=
  ["enabled", "autocorrect", "smart_punctuation", "min_word_length",
   "hotkey", "applications", "custom_typos"]

/-! Helper lemmas about the Python dict model. -/

theorem lookupDict_dictInsert {α : Type} (m : List (String × α))
    (k k' : String) (v : α) :
    lookupDict (dictInsert m k v) k' =
      if k = k' then some v else lookupDict m k' := by
  induction m with
  | nil => simp [dictInsert, lookupDict]
  | cons p rest ih =>
      obtain ⟨a, b⟩ := p
      by_cases hak : a = k
      · subst hak
        by_cases hk : a = k'
        · subst hk; simp [dictInsert, lookupDict]
        · simp [dictInsert, lookupDict, hk]
      · by_cases hk : a = k'
        · subst hk
          have hka : ¬ k = a := fun h => hak h.symm
          simp [dictInsert, lookupDict, hak, hka]
        · simp [dictInsert, lookupDict, hak, hk, ih]

theorem keys_dictInsert_subset {α : Type} (m : List (String × α))
    (k : String) (v : α) :
    ∀ a ∈ (dictInsert m k v).map Prod.fst, a = k ∨ a ∈ m.map Prod.fst := by
  induction m with
  | nil => simp [dictInsert]
  | cons p rest ih =>
      obtain ⟨a', b'⟩ := p
      intro a ha
      by_cases hak : a' = k
      · subst hak
        simp [dictInsert] at ha
        rcases ha with h | h
        · left; exact h
        · right; simp [h]
      · simp [dictInsert, hak] at ha
        rcases ha with h | h
        · right; simp [h]
        · have h2 : a ∈ (dictInsert rest k v).map Prod.fst := by simpa using h
          rcases ih a h2 with h' | h'
          · left; exact h'
          · right; simp [h']

theorem nodupKeys_dictInsert {α : Type} (m : List (String × α))
    (k : String) (v : α) (h : (m.map Prod.fst).Nodup) :
    ((dictInsert m k v).map Prod.fst).Nodup := by
  induction m with
  | nil => simp [dictInsert]
  | cons p rest ih =>
      obtain ⟨a, b⟩ := p
      simp only [List.map_cons, List.nodup_cons] at h
      by_cases hak : a = k
      · subst hak
        simpa [dictInsert] using h
      · have hrest := ih h.2
        simp only [dictInsert, hak, if_false, List.map_cons, List.nodup_cons]
        refine ⟨fun hmem => ?_, hrest⟩
        rcases keys_dictInsert_subset rest k v a hmem with h' | h'
        · exact hak h'
        · exact h.1 h'

theorem nodupKeys_foldl_dictInsert {α : Type} (rows : List (String × α)) :
    ∀ m : List (String × α), (m.map Prod.fst).Nodup →
      ((rows.foldl (fun acc r => dictInsert acc r.1 r.2) m).map Prod.fst).Nodup := by
  induction rows with
  | nil => intro m hm; simpa using hm
  | cons r rest ih =>
      intro m hm
      exact ih (dictInsert m r.1 r.2) (nodupKeys_dictInsert m r.1 r.2 hm)

theorem lookupDict_foldl_dictInsert {α : Type} (rows : List (String × α))
    (k : String) :
    ∀ m : List (String × α),
      lookupDict (rows.foldl (fun acc r => dictInsert acc r.1 r.2) m) k =
        orElseOpt (lastEntered rows k) (lookupDict m k) := by
  induction rows with
  | nil => intro m; simp [lastEntered, orElseOpt]
  | cons r rest ih =>
      obtain ⟨a, b⟩ := r
      intro m
      simp only [List.foldl_cons]
      rw [ih]
      cases hle : lastEntered rest k with
      | some v => simp [lastEntered, hle, orElseOpt]
      | none =>
          by_cases hak : a = k
          · simp [lastEntered, hle, orElseOpt, lookupDict_dictInsert, hak]
          · simp [lastEntered, hle, orElseOpt, lookupDict_dictInsert, hak]

theorem orElseOpt_none {α : Type} (o : Option α) : orElseOpt o none = o := by
  cases o <;> rfl

theorem appRuleToYaml_inj (r t : AppRule)
    (h : AppRule.toYaml r = AppRule.toYaml t) : r = t := by
  cases r; cases t
  simp [AppRule.toYaml] at h
  obtain ⟨h1, h2, h3⟩ := h
  subst h1; subst h2; subst h3
  rfl

theorem mapSnd_inj {α β : Type} (f : α → β)
    (hf : ∀ a b, f a = f b → a = b) :
    ∀ xs ys : List (String × α),
      xs.map (fun p => (p.1, f p.2)) = ys.map (fun p => (p.1, f p.2)) →
      xs = ys := by
  intro xs
  induction xs with
  | nil =>
      intro ys h
      cases ys with
      | nil => rfl
      | cons y ys => simp at h
  | cons x xs ih =>
      intro ys h
      cases ys with
      | nil => simp at h
      | cons y ys =>
          obtain ⟨x1, x2⟩ := x
          obtain ⟨y1, y2⟩ := y
          simp at h
          obtain ⟨⟨hk, hv⟩, hrest⟩ := h
          subst hk
          have hx := hf _ _ hv
          subst hx
          have hxs := ih ys hrest
          subst hxs
          rfl

theorem settingsToYaml_inj (s t : Settings)
    (h : Settings.toYaml s = Settings.toYaml t) : s = t := by
  cases s; cases t
  simp [Settings.toYaml] at h
  obtain ⟨he, hsp, hac, hmw, happ, htyp, hhk⟩ := h
  have ha := mapSnd_inj AppRule.toYaml appRuleToYaml_inj _ _ happ
  have ht := mapSnd_inj YVal.str (fun a b hab => by injection hab) _ _ htyp
  subst he; subst hsp; subst hac; subst hmw; subst hhk; subst ha; subst ht
  rfl

/-! Theorems settling the claims. -/

/-- C1: refuted on the code — when the configuration file exists but its
content is not decodable YAML, `load_config` does not fall back to the
defaults: the method has no exception handler, so the `yaml.safe_load`
error propagates out of `load_config` and its caller never obtains
`default_config`. -/
theorem C1_invalid_yaml_load_raises :
    load_config (FileState.invalid "enabled: [unclosed") = LoadOutcome.raised :=
  rfl

/-- C3: when the configuration file does not exist, `load_config` returns
exactly `default_config`, as an ordinary value and not an error outcome;
the defaults enable every feature, set `min_word_length` to 2 and the
hotkey to Super+Shift+A, and carry three sample applications and two
illustrative typo corrections. -/
theorem C3_missing_file_yields_defaults :
    load_config FileState.absent = LoadOutcome.ok (YVal.map default_config) ∧
    lookupDict default_config "enabled" = some (YVal.bool true) ∧
    lookupDict default_config "smart_punctuation" = some (YVal.bool true) ∧
    lookupDict default_config "autocorrect" = some (YVal.bool true) ∧
    lookupDict default_config "min_word_length" = some (YVal.int 2) ∧
    lookupDict default_config "hotkey" = some (YVal.str "Super+Shift+A") ∧
    (∃ apps, lookupDict default_config "applications" = some (YVal.map apps) ∧
      apps.length = 3) ∧
    (∃ typos, lookupDict default_config "custom_typos" = some (YVal.map typos) ∧
      typos.length = 2) :=
  ⟨rfl, rfl, rfl, rfl, rfl, rfl, ⟨_, rfl, rfl⟩, ⟨_, rfl, rfl⟩⟩

/-- C4: refuted on the code — `save_config` opens the configuration path
itself in write mode, which truncates it in place before `yaml.dump` runs;
interrupting right after the `open` therefore leaves a zero-length file
where the prior valid file stood (no temp file, no atomic rename), and that
truncated file no longer decodes to the prior document (an empty file
decodes to Python None). -/
theorem C4_interrupted_save_truncates :
    save_config_at (YVal.map default_config) SaveStep.afterOpen = FileState.empty ∧
    load_config FileState.empty = LoadOutcome.ok YVal.null :=
  ⟨rfl, rfl⟩

/-- C7: `update_status` always lands in Active, Inactive or Unknown — the
bare except converts every raised exception into the Unknown display — and
any invocation failure (missing binary, permission error) yields Unknown. -/
theorem C7_status_total_unknown_on_failure :
    (∀ o : InvokeOutcome,
      update_status o = ServiceStatus.Active ∨
      update_status o = ServiceStatus.Inactive ∨
      update_status o = ServiceStatus.Unknown) ∧
    update_status InvokeOutcome.osError = ServiceStatus.Unknown := by
  refine ⟨fun o => ?_, rfl⟩
  cases o with
  | completed rc =>
      by_cases h : rc = 0
      · left; simp [update_status, h]
      · right; left; simp [update_status, h]
  | osError => right; right; rfl

/-- C9: refuted as stated — none of the three service operations passes a
timeout (`timeout = none`: the `subprocess.run` call may block indefinitely)
and none captures output (`capture_output = false`: there is no captured
diagnostic text; the warning dialog only interpolates the
`CalledProcessError`, i.e. the command and its exit status). -/
theorem C9_no_timeout_no_capture :
    start_service_call.timeout = none ∧
    stop_service_call.timeout = none ∧
    restart_service_call.timeout = none ∧
    start_service_call.capture_output = false ∧
    stop_service_call.capture_output = false ∧
    restart_service_call.capture_output = false :=
  ⟨rfl, rfl, rfl, rfl, rfl, rfl⟩

/-- C9 (amended): each of start/stop/restart invokes systemctl --user with
the fixed service name smarttype and check=True but with no timeout and no
output capture; a non-zero exit raises `CalledProcessError`, which the
handler catches and reports in a warning dialog carrying the exception's
text (command and exit status) — never silently swallowed. -/
theorem C9_amended_nonzero_exit_reported :
    start_service_call.argv = ["systemctl", "--user", "start", "smarttype"] ∧
    stop_service_call.argv = ["systemctl", "--user", "stop", "smarttype"] ∧
    restart_service_call.argv = ["systemctl", "--user", "restart", "smarttype"] ∧
    start_service_call.check = true ∧
    stop_service_call.check = true ∧
    restart_service_call.check = true ∧
    (∀ rc : Int, rc ≠ 0 →
      start_service (InvokeOutcome.completed rc) = ServiceUIOutcome.reportedError rc ∧
      stop_service (InvokeOutcome.completed rc) = ServiceUIOutcome.reportedError rc ∧
      restart_service (InvokeOutcome.completed rc) = ServiceUIOutcome.reportedError rc) := by
  refine ⟨rfl, rfl, rfl, rfl, rfl, rfl, fun rc h => ?_⟩
  refine ⟨?_, ?_, ?_⟩ <;>
    simp [start_service, stop_service, restart_service, serviceActionBody,
      runChecked, h]

/-- Witness for C9 (amended) at exit status 1. -/
theorem C9_amended_nonzero_exit_reported_witness :
    (1 : Int) ≠ 0 ∧
    start_service (InvokeOutcome.completed 1) = ServiceUIOutcome.reportedError 1 :=
  ⟨by decide, (C9_amended_nonzero_exit_reported.2.2.2.2.2.2 1 (by decide)).1⟩

/-- C2: round-trip fidelity — saving the configuration document of a valid
Settings value and loading it back returns exactly that document, and the
document determines the Settings value (the encoding into the configuration
dict is injective), so load after save is the identity on valid Settings
values. -/
theorem C2_save_load_roundtrip :
    ∀ (s t : Settings) (fs : FileState), validSettings s →
      load_config (save_config (Settings.toYaml s) fs) =
        LoadOutcome.ok (Settings.toYaml s) ∧
      (Settings.toYaml s = Settings.toYaml t → s = t) := by
  intro s t fs _hv
  exact ⟨rfl, settingsToYaml_inj s t⟩

/-- Witness for C2 at a small concrete valid Settings value. -/
theorem C2_save_load_roundtrip_witness :
    validSettings ⟨true, true, true, 2, "Super+Shift+A",
      [("firefox", ⟨true, true, true⟩)], [("hte", "the")]⟩ ∧
    load_config (save_config
        (Settings.toYaml ⟨true, true, true, 2, "Super+Shift+A",
          [("firefox", ⟨true, true, true⟩)], [("hte", "the")]⟩)
        FileState.absent) =
      LoadOutcome.ok (Settings.toYaml ⟨true, true, true, 2, "Super+Shift+A",
        [("firefox", ⟨true, true, true⟩)], [("hte", "the")]⟩) :=
  ⟨by decide,
   (C2_save_load_roundtrip
      ⟨true, true, true, 2, "Super+Shift+A",
        [("firefox", ⟨true, true, true⟩)], [("hte", "the")]⟩
      ⟨true, true, true, 2, "Super+Shift+A",
        [("firefox", ⟨true, true, true⟩)], [("hte", "the")]⟩
      FileState.absent (by decide)).1⟩

/-- C8: the custom-typos dict built by `save_configuration` from the table
rows has no duplicate keys, maps every typo to the last correction entered
for it in the table, and is exactly what `save_configuration` stores under
the custom_typos key. -/
theorem C8_duplicate_typos_last_write_wins :
    ∀ rows : List (String × String),
      ((tableToDict rows).map Prod.fst).Nodup ∧
      (∀ k, lookupDict (tableToDict rows) k = lastEntered rows k) ∧
      ∀ (config : List (String × YVal)) (ui : UIState),
        lookupDict (save_configuration config ui) "custom_typos" =
          some (YVal.map ((tableToDict ui.typo_table).map
            (fun p => (p.1, YVal.str p.2)))) := by
  intro rows
  refine ⟨nodupKeys_foldl_dictInsert rows [] (by simp), fun k => ?_,
    fun config ui => ?_⟩
  · have h := lookupDict_foldl_dictInsert rows k []
    simpa [tableToDict, lookupDict, orElseOpt_none] using h
  · simp [save_configuration, lookupDict_dictInsert]

/-- C10: `save_configuration` reassigns only the seven schema keys, so every
other top-level key of the loaded dict keeps exactly its loaded value, and
completing the save stores that dict at the configuration path, so a
subsequent load returns it. -/
theorem C10_unknown_keys_preserved :
    ∀ (config : List (String × YVal)) (ui : UIState) (k : String),
      k ∉ knownConfigKeys →
      lookupDict (save_configuration config ui) k = lookupDict config k ∧
      load_config (save_config (YVal.map (save_configuration config ui))
          (FileState.valid (YVal.map config))) =
        LoadOutcome.ok (YVal.map (save_configuration config ui)) := by
  intro config ui k hk
  simp only [knownConfigKeys, List.mem_cons, List.not_mem_nil, or_false,
    not_or] at hk
  obtain ⟨h1, h2, h3, h4, h5, h6, h7⟩ := hk
  have e1 : ("enabled" : String) ≠ k := fun h => h1 h.symm
  have e2 : ("autocorrect" : String) ≠ k := fun h => h2 h.symm
  have e3 : ("smart_punctuation" : String) ≠ k := fun h => h3 h.symm
  have e4 : ("min_word_length" : String) ≠ k := fun h => h4 h.symm
  have e5 : ("hotkey" : String) ≠ k := fun h => h5 h.symm
  have e6 : ("applications" : String) ≠ k := fun h => h6 h.symm
  have e7 : ("custom_typos" : String) ≠ k := fun h => h7 h.symm
  exact ⟨by simp [save_configuration, lookupDict_dictInsert,
    e1, e2, e3, e4, e5, e6, e7], rfl⟩

/-- Witness for C10: a key outside the schema survives a save unchanged. -/
theorem C10_unknown_keys_preserved_witness :
    "daemon_log_level" ∉ knownConfigKeys ∧
    lookupDict (save_configuration [("daemon_log_level", YVal.str "debug")]
        ⟨true, true, true, 2, "Super+Shift+A", [], []⟩) "daemon_log_level" =
      lookupDict [("daemon_log_level", YVal.str "debug")] "daemon_log_level" :=
  ⟨by decide,
   (C10_unknown_keys_preserved [("daemon_log_level", YVal.str "debug")]
      ⟨true, true, true, 2, "Super+Shift+A", [], []⟩ "daemon_log_level"
      (by decide)).1⟩

/-- C6: refuted as stated — a `min_word_length` of 99 in the on-disk file is
returned by `load_config` unchanged: no rejection and no clamping happens at
load, even though 99 is outside the range (10 < 99). -/
theorem C6_load_passes_out_of_range :
    load_config (FileState.valid (YVal.map [("min_word_length", YVal.int 99)])) =
      LoadOutcome.ok (YVal.map [("min_word_length", YVal.int 99)]) ∧
    lookupDict [("min_word_length", YVal.int 99)] "min_word_length" =
      some (YVal.int 99) ∧
    (10 : Int) < 99 :=
  ⟨rfl, rfl, by decide⟩

/-- C6 (amended): `load_config` performs no range validation — the on-disk
value passes through unchanged — but the value held by the widgets after
`load_settings` (and hence the value any subsequent save writes back) is
clamped into 1..10 by the spinbox range. -/
theorem C6_amended_spinbox_clamps :
    ∀ (config : List (String × YVal)) (s : Settings),
      load_settings_effective config = some s →
      1 ≤ s.min_word_length ∧ s.min_word_length ≤ 10 := by
  intro config s h
  simp only [load_settings_effective, Bind.bind, Option.bind_eq_some,
    Pure.pure, Option.some.injEq] at h
  obtain ⟨e, -, ac, -, sp, -, mw, -, hk, -, apps, -, rules, -, ti, -,
    typos, -, hs⟩ := h
  subst hs
  exact ⟨le_max_left 1 _, max_le (by norm_num) (min_le_left 10 mw)⟩

/-- Witness for C6 (amended): loading a file with min_word_length 99 leaves
the spinbox at a value within 1..10. -/
theorem C6_amended_spinbox_clamps_witness :
    load_settings_effective [("min_word_length", YVal.int 99)] =
      some ⟨true, true, true, 10, "Super+Shift+A", [], []⟩ ∧
    1 ≤ (⟨true, true, true, 10, "Super+Shift+A", [], []⟩ : Settings).min_word_length ∧
    (⟨true, true, true, 10, "Super+Shift+A", [], []⟩ : Settings).min_word_length ≤ 10 :=
  ⟨by decide,
   C6_amended_spinbox_clamps [("min_word_length", YVal.int 99)]
     ⟨true, true, true, 10, "Super+Shift+A", [], []⟩ (by decide)⟩

/-- C5: refuted as stated — for the file containing only enabled: false, the
missing applications and custom_typos keys do not take their
`default_config` values: both tables load empty, while the defaults hold
three applications (and two typo corrections). -/
theorem C5_mapping_defaults_not_applied :
    (load_settings_effective [("enabled", YVal.bool false)]).map
      Settings.applications = some [] ∧
    (load_settings_effective [("enabled", YVal.bool false)]).map
      Settings.custom_typos = some [] ∧
    (∃ apps, lookupDict default_config "applications" = some (YVal.map apps) ∧
      apps.length = 3) :=
  ⟨by decide, by decide, ⟨_, rfl, rfl⟩⟩

/-- C5 (amended): partial defaulting holds per field at the widget layer,
with the call-site defaults of `load_settings`: each missing scalar key
individually takes its `default_config` value, while a missing applications
or custom_typos key defaults to the empty mapping (not the sample defaults);
in particular the file containing only enabled: false loads as
enabled=false, the scalar defaults, and two empty tables. -/
theorem C5_amended_partial_defaulting :
    load_settings_effective [("enabled", YVal.bool false)] =
      some ⟨false, true, true, 2, "Super+Shift+A", [], []⟩ ∧
    ∀ (config : List (String × YVal)) (s : Settings),
      load_settings_effective config = some s →
      (lookupDict config "enabled" = none → s.enabled = true) ∧
      (lookupDict config "autocorrect" = none → s.autocorrect = true) ∧
      (lookupDict config "smart_punctuation" = none →
        s.smart_punctuation = true) ∧
      (lookupDict config "min_word_length" = none → s.min_word_length = 2) ∧
      (lookupDict config "hotkey" = none → s.hotkey = "Super+Shift+A") ∧
      (lookupDict config "applications" = none → s.applications = []) ∧
      (lookupDict config "custom_typos" = none → s.custom_typos = []) := by
  refine ⟨by decide, fun config s h => ?_⟩
  simp only [load_settings_effective, Bind.bind, Option.bind_eq_some,
    Pure.pure, Option.some.injEq] at h
  obtain ⟨e, he, ac, hac, sp, hsp, mw, hmw, hk, hhk, apps, happs, rules,
    hrules, ti, hti, typos, htypos, hs⟩ := h
  subst hs
  refine ⟨fun hn => ?_, fun hn => ?_, fun hn => ?_, fun hn => ?_,
    fun hn => ?_, fun hn => ?_, fun hn => ?_⟩
  · simp [getBool, hn] at he
    simp [he]
  · simp [getBool, hn] at hac
    simp [hac]
  · simp [getBool, hn] at hsp
    simp [hsp]
  · simp [getInt, hn] at hmw
    simp [← hmw, spinboxClamp]
  · simp [getStr, hn] at hhk
    simp [hhk]
  · simp [getItems, hn] at happs
    subst happs
    simp [readApps, List.mapM.loop] at hrules
    subst hrules
    rfl
  · simp [getItems, hn] at hti
    subst hti
    simp [readTypos, List.mapM.loop] at htypos
    subst htypos
    rfl

/-- Witness for C5 (amended) at the empty file, where the enabled key itself
is missing and individually defaults to true. -/
theorem C5_amended_partial_defaulting_witness :
    load_settings_effective [] =
      some ⟨true, true, true, 2, "Super+Shift+A", [], []⟩ ∧
    (⟨true, true, true, 2, "Super+Shift+A", [], []⟩ : Settings).enabled =
      true :=
  ⟨by decide,
   (C5_amended_partial_defaulting.2 []
      ⟨true, true, true, 2, "Super+Shift+A", [], []⟩ (by decide)).1 rfl⟩

end SmartType
